import Mathlib

/-!
Shallow embedding of the SilentSOS emergency detection and alerting pipeline.

Scores and sensor readings are JavaScript numbers; we model them as exact
rationals (`ℚ`).  Fields that may be absent (`undefined`/`null` in the
source) are modelled as `Option`; a JavaScript comparison against an absent
value (`undefined > c`) is `false`, which the helpers `optGt` / `optLt`
encode.  Code paths that throw a `TypeError` (property access on
`null`/`undefined`) are modelled with `Except`.
-/

namespace SilentSOS

/-- JavaScript `Math.min` on two numbers (kernel-reducible). -/
def jsMin (a b : ℚ) : ℚ := if a ≤ b then a else b

/-- JavaScript `Math.max` on two numbers (kernel-reducible). -/
def jsMax (a b : ℚ) : ℚ := if a ≤ b then b else a

/-- JavaScript comparison `x > c` where `x` may be `undefined`:
`undefined > c` evaluates to `false`. -/
def optGt (x : Option ℚ) (c : ℚ) : Bool :=
  match x with
  | some v => decide (v > c)
  | none => false

/-- JavaScript comparison `x < c` where `x` may be `undefined`:
`undefined < c` evaluates to `false`. -/
def optLt (x : Option ℚ) (c : ℚ) : Bool :=
  match x with
  | some v => decide (v < c)
  | none => false

/-- Classification levels produced by the detection pipeline. -/
inductive Level where
  | safe
  | suspicious
  | emergency
  deriving DecidableEq, Repr

/-- `EmergencyDetector.classifyEmergency` (client), projected to its `level`
field: `score >= 70` is `emergency`, else `score >= 40` is `suspicious`,
else `safe`. -/
def classifyEmergency (score : ℚ) : Level :=
  if score ≥ 70 then Level.emergency
  else if score ≥ 40 then Level.suspicious
  else Level.safe

/-- Status derivation in `SensorContext.processSensorData` (client):
`totalScore > 70` is `emergency`, else `totalScore > 40` is `suspicious`,
else `safe` (strict comparisons). -/
def processSensorDataStatus (totalScore : ℚ) : Level :=
  if totalScore > 70 then Level.emergency
  else if totalScore > 40 then Level.suspicious
  else Level.safe

/-- Per-user adaptive thresholds (`this.userThresholds` in
`EmergencyDetector`). -/
structure Thresholds where
  motionSensitivity : ℚ
  audioSensitivity : ℚ
  contextWeight : ℚ
  deriving DecidableEq, Repr

/-- Mutable state of an `EmergencyDetector` instance relevant to
`updateThresholds`: the thresholds and the false-positive counter. -/
structure DetectorState where
  userThresholds : Thresholds
  falsePositiveCount : ℕ
  deriving DecidableEq, Repr

/-- Constructor state of `EmergencyDetector`: thresholds (1.0, 1.0, 1.0) and
`falsePositiveCount = 0`. -/
def initialDetectorState : DetectorState :=
  { userThresholds := { motionSensitivity := 1, audioSensitivity := 1, contextWeight := 1 }
    falsePositiveCount := 0 }

/-- Outcome labels accepted by `updateThresholds`. -/
inductive Outcome where
  | false_positive
  | missed_emergency
  | other
  deriving DecidableEq, Repr

/-- `EmergencyDetector.updateThresholds(outcome, sensorSnapshot)`:
on `false_positive`, increment the counter and multiply motion/audio
sensitivity by 0.95, additionally multiplying `contextWeight` by 0.9 once
the counter exceeds 5; on `missed_emergency`, multiply sensitivities by
1.05 and `contextWeight` by 1.02.  Afterwards (on every call) clamp
sensitivities to [0.3, 2.0] and `contextWeight` to [0.5, 1.5]. -/
def updateThresholds (outcome : Outcome) (s : DetectorState) : DetectorState :=
  let t := s.userThresholds
  let stepped : DetectorState :=
    match outcome with
    | Outcome.false_positive =>
        let fpc := s.falsePositiveCount + 1
        { userThresholds :=
            { motionSensitivity := t.motionSensitivity * 0.95
              audioSensitivity := t.audioSensitivity * 0.95
              contextWeight := if fpc > 5 then t.contextWeight * 0.9 else t.contextWeight }
          falsePositiveCount := fpc }
    | Outcome.missed_emergency =>
        { userThresholds :=
            { motionSensitivity := t.motionSensitivity * 1.05
              audioSensitivity := t.audioSensitivity * 1.05
              contextWeight := t.contextWeight * 1.02 }
          falsePositiveCount := s.falsePositiveCount }
    | Outcome.other => s
  let u := stepped.userThresholds
  { userThresholds :=
      { motionSensitivity := jsMax 0.3 (jsMin 2.0 u.motionSensitivity)
        audioSensitivity := jsMax 0.3 (jsMin 2.0 u.audioSensitivity)
        contextWeight := jsMax 0.5 (jsMin 1.5 u.contextWeight) }
    falsePositiveCount := stepped.falsePositiveCount }

/-- `n` consecutive `false_positive` outcomes applied to a fresh detector. -/
def iterateFalsePositives : ℕ → DetectorState
  | 0 => initialDetectorState
  | n + 1 => updateThresholds Outcome.false_positive (iterateFalsePositives n)

/-- Default adaptive thresholds (1.0, 1.0, 1.0). -/
def defaultThresholds : Thresholds :=
  { motionSensitivity := 1, audioSensitivity := 1, contextWeight := 1 }

/-- `sensorData.motion.suddenImpact` sub-object. -/
structure SuddenImpact where
  magnitude : Option ℚ
  deriving DecidableEq, Repr

/-- `sensorData.motion.acceleration` sub-object (read by the server analyzer). -/
structure Acceleration where
  variance : Option ℚ
  deriving DecidableEq, Repr

/-- `sensorData.audio.amplitude` sub-object. -/
structure Amplitude where
  suddenDrop : Bool
  current : Option ℚ
  deriving DecidableEq, Repr

/-- `sensorData.audio.distressSound` sub-object. -/
structure DistressSound where
  confidence : Option ℚ
  deriving DecidableEq, Repr

/-- `sensorData.motion`.  The union of the fields read by the client and the
server analyzers, plus `inactivityDurationMs`, which appears in payloads but
is read by neither. -/
structure Motion where
  magnitude : Option ℚ
  variance : Option ℚ
  stillnessDuration : Option ℚ
  inactivityDurationMs : Option ℚ
  suddenImpact : Option SuddenImpact
  acceleration : Option Acceleration
  deriving DecidableEq, Repr

/-- `sensorData.audio`. -/
structure Audio where
  silenceDuration : Option ℚ
  breathingIrregularity : Option ℚ
  distressSound : Option DistressSound
  amplitude : Option Amplitude
  deriving DecidableEq, Repr

/-- `sensorData.activity`. -/
structure Activity where
  inactivityDuration : Option ℚ
  deriving DecidableEq, Repr

/-- The `sensorData` argument of the scoring functions. -/
structure SensorData where
  motion : Option Motion
  audio : Option Audio
  activity : Option Activity
  deriving DecidableEq, Repr

/-- `contextData.environment`. -/
structure Environment where
  noiseLevel : Option ℚ
  lightLevel : Option ℚ
  temperature : Option ℚ
  deriving DecidableEq, Repr

/-- `contextData.userPatterns`. -/
structure UserPatterns where
  usualActivityLevel : Option ℚ
  locationDeviation : Option ℚ
  currentActivity : Option ℚ
  deriving DecidableEq, Repr

/-- One element of `contextData.crowdSignals`. -/
structure CrowdSignal where
  distance : Option ℚ
  emergencyScore : Option ℚ
  timestamp : Option ℚ
  deriving DecidableEq, Repr

/-- The `contextData` argument.  The server pattern check reads
`contextData.currentActivity` at top level while the client reads
`userPatterns.currentActivity`; both fields are modelled. -/
structure ContextData where
  environment : Option Environment
  userPatterns : Option UserPatterns
  crowdSignals : Option (List CrowdSignal)
  currentActivity : Option ℚ
  deriving DecidableEq, Repr

/-- A safe-zone facility (`nearestHospital` etc.). -/
structure Facility where
  distance : Option ℚ
  deriving DecidableEq, Repr

/-- `location.isolation`. -/
structure Isolation where
  nearbyPeople : Option ℚ
  publicPlace : Option Bool
  cellTowerDistance : Option ℚ
  deriving DecidableEq, Repr

/-- `location.safeZones`. -/
structure SafeZones where
  nearestHospital : Option Facility
  nearestPolice : Option Facility
  nearestFireStation : Option Facility
  deriving DecidableEq, Repr

/-- The `location` argument (`type` is read only by the client analyzer). -/
structure Location where
  isolation : Option Isolation
  safeZones : Option SafeZones
  type : Option String
  deriving DecidableEq, Repr

/-- Motion block of the server `analyzeSensorData`: impact > 15 adds 40,
acceleration variance > 10 adds 25, stillness > 300 s adds 20. -/
def serverMotionScore (motion : Option Motion) : ℚ :=
  match motion with
  | none => 0
  | some m =>
      (if (match m.suddenImpact with
           | some si => optGt si.magnitude 15
           | none => false) then 40 else 0)
    + (if (match m.acceleration with
           | some acc => optGt acc.variance 10
           | none => false) then 25 else 0)
    + (if optGt m.stillnessDuration 300 then 20 else 0)

/-- Audio block of the server `analyzeSensorData`: silence > 600 s adds 30,
breathing irregularity > 0.7 adds 25, distress confidence > 0.6 adds 35,
sudden amplitude drop adds 15. -/
def serverAudioScore (audio : Option Audio) : ℚ :=
  match audio with
  | none => 0
  | some au =>
      (if optGt au.silenceDuration 600 then 30 else 0)
    + (if optGt au.breathingIrregularity 0.7 then 25 else 0)
    + (if (match au.distressSound with
           | some d => optGt d.confidence 0.6
           | none => false) then 35 else 0)
    + (if (match au.amplitude with
           | some amp => amp.suddenDrop
           | none => false) then 15 else 0)

/-- Activity block of the server `analyzeSensorData`: inactivity > 1800 s
adds 20. -/
def serverActivityScore (activity : Option Activity) : ℚ :=
  match activity with
  | none => 0
  | some act => if optGt act.inactivityDuration 1800 then 20 else 0

/-- Server `analyzeSensorData` (`emergencyDetection.js`): the three blocks
summed and capped at 100. -/
def analyzeSensorData (sensorData : SensorData) : ℚ :=
  jsMin 100
    (serverMotionScore sensorData.motion + serverAudioScore sensorData.audio
      + serverActivityScore sensorData.activity)

/-- Time-of-day bonus shared by both context analyzers: `currentHour >= 22 ||
currentHour <= 6` adds 15. -/
def timeOfDayScore (currentHour : ℕ) : ℚ :=
  if currentHour ≥ 22 ∨ currentHour ≤ 6 then 15 else 0

/-- Environment block of `analyzeContextData` (identical client/server):
quiet < 0.2 adds 10, dark < 0.1 adds 8, temperature < 5 or > 35 adds 5. -/
def environmentScore (environment : Option Environment) : ℚ :=
  match environment with
  | none => 0
  | some env =>
      (if optLt env.noiseLevel 0.2 then 10 else 0)
    + (if optLt env.lightLevel 0.1 then 8 else 0)
    + (if optLt env.temperature 5 || optGt env.temperature 35 then 5 else 0)

/-- User-pattern block of the server `analyzeContextData`: location deviation
> 0.8 adds 12; usually-active user (`> 0.7`) currently inactive
(`contextData.currentActivity < 0.2`, read at top level) adds 10. -/
def serverPatternScore (userPatterns : Option UserPatterns)
    (currentActivity : Option ℚ) : ℚ :=
  match userPatterns with
  | none => 0
  | some up =>
      (if optGt up.locationDeviation 0.8 then 12 else 0)
    + (if optGt up.usualActivityLevel 0.7 && optLt currentActivity 0.2 then 10 else 0)

/-- Server `analyzeContextData`, with the wall-clock hour made explicit. -/
def analyzeContextData (currentHour : ℕ) (contextData : ContextData) : ℚ :=
  jsMin 100
    (timeOfDayScore currentHour + environmentScore contextData.environment
      + serverPatternScore contextData.userPatterns contextData.currentActivity)

/-- `nearestX?.distance || Infinity`: an absent facility, an absent
`distance`, or a zero `distance` (falsy in JavaScript) all yield `Infinity`,
modelled as `none`. -/
def facilityDistance (facility : Option Facility) : Option ℚ :=
  match facility with
  | none => none
  | some f =>
    match f.distance with
    | none => none
    | some d => if d = 0 then none else some d

/-- `Math.min` over possibly-infinite distances (`none` = `Infinity`). -/
def optMin (a b : Option ℚ) : Option ℚ :=
  match a, b with
  | none, b => b
  | some x, none => some x
  | some x, some y => some (jsMin x y)

/-- Isolation block of `analyzeLocationData` (identical client/server):
`nearbyPeople === 0` adds 15, a falsy `publicPlace` adds 10, cell tower
distance > 5000 adds 8. -/
def isolationScore (isolation : Option Isolation) : ℚ :=
  match isolation with
  | none => 0
  | some iso =>
      (if iso.nearbyPeople = some 0 then 15 else 0)
    + (if iso.publicPlace ≠ some true then 10 else 0)
    + (if optGt iso.cellTowerDistance 5000 then 8 else 0)

/-- Safe-zone block of `analyzeLocationData`: nearest service < 1000 m
subtracts 10, > 10000 m (including `Infinity`, when no facility has a truthy
distance) adds 15. -/
def safeZoneScore (safeZones : Option SafeZones) : ℚ :=
  match safeZones with
  | none => 0
  | some sz =>
    match optMin (facilityDistance sz.nearestHospital)
        (optMin (facilityDistance sz.nearestPolice)
          (facilityDistance sz.nearestFireStation)) with
    | some minDistance =>
        if minDistance < 1000 then -10
        else if minDistance > 10000 then 15 else 0
    | none => 15

/-- Server `analyzeLocationData`: isolation plus safe-zone factors, clamped
to [0, 100] (a missing location scores 0). -/
def analyzeLocationData (location : Option Location) : ℚ :=
  match location with
  | none => 0
  | some loc => jsMax 0 (jsMin 100 (isolationScore loc.isolation + safeZoneScore loc.safeZones))

/-- `analyzeCrowdData` (identical client/server), with `Date.now()` made
explicit: signals within 500 m, score > 60, within the last 5 minutes; any
such signal adds 20, three or more add another 30. -/
def analyzeCrowdData (now : ℚ) (crowdSignals : List CrowdSignal) : ℚ :=
  if crowdSignals.isEmpty then 0
  else
    let nearbyEmergencies := crowdSignals.filter fun signal =>
      optLt signal.distance 500 && optGt signal.emergencyScore 60
        && optGt signal.timestamp (now - 300000)
    jsMin 100
      ((if nearbyEmergencies.length > 0 then 20 else 0)
        + (if nearbyEmergencies.length ≥ 3 then 30 else 0))

/-- Score breakdown produced by the scoring engines (`manual` models the
presence of the `manual: true` key of the manual-alert breakdown; it is
absent, i.e. `false`, on computed breakdowns). -/
structure ScoreBreakdown where
  sensorScore : ℚ
  contextScore : ℚ
  locationScore : ℚ
  crowdScore : ℚ
  totalScore : ℚ
  manual : Bool
  deriving DecidableEq, Repr

/-- The weighted blend of the server `calculateEmergencyScore`:
`min(100, sensor*0.5 + context*0.2 + location*0.2 + crowd*0.1)`. -/
def weightedTotal (sensorScore contextScore locationScore crowdScore : ℚ) : ℚ :=
  jsMin 100
    (sensorScore * 0.5 + contextScore * 0.2 + locationScore * 0.2 + crowdScore * 0.1)

/-- Core of the server `calculateEmergencyScore` on non-null arguments. -/
def calculateScore (currentHour : ℕ) (now : ℚ) (sensorData : SensorData)
    (contextData : ContextData) (location : Option Location) : ScoreBreakdown :=
  let sensorScore := analyzeSensorData sensorData
  let contextScore := analyzeContextData currentHour contextData
  let locationScore := analyzeLocationData location
  let crowdScore := analyzeCrowdData now (contextData.crowdSignals.getD [])
  { sensorScore := sensorScore
    contextScore := contextScore
    locationScore := locationScore
    crowdScore := crowdScore
    totalScore := weightedTotal sensorScore contextScore locationScore crowdScore
    manual := false }

/-- Server `calculateEmergencyScore` as called by the route: a `null` or
`undefined` `sensorData` throws a `TypeError` at `sensorData.motion`, and a
`null` or `undefined` `contextData` throws at `contextData.environment`;
`location` is guarded (`if (!location) return 0`) and never throws. -/
def calculateEmergencyScore (currentHour : ℕ) (now : ℚ)
    (sensorData : Option SensorData) (contextData : Option ContextData)
    (location : Option Location) : Except String ScoreBreakdown :=
  match sensorData with
  | none => Except.error "TypeError: cannot read properties of sensorData"
  | some sd =>
    match contextData with
    | none => Except.error "TypeError: cannot read properties of contextData"
    | some cd => Except.ok (calculateScore currentHour now sd cd location)

/-- Motion block of the client `analyzeSensorData` (`EmergencyDetector.js`):
impact > 15 adds `min(40, magnitude*2)`, variance > 10 adds
`min(25, variance*2)`, stillness > 300000 ms adds `min(20, ms/60000*2)`,
magnitude > 20 adds 30. -/
def clientMotionScore (motion : Option Motion) : ℚ :=
  match motion with
  | none => 0
  | some m =>
      (match m.suddenImpact with
       | some si =>
           if optGt si.magnitude 15 then jsMin 40 (si.magnitude.getD 0 * 2) else 0
       | none => 0)
    + (if optGt m.variance 10 then jsMin 25 (m.variance.getD 0 * 2) else 0)
    + (if optGt m.stillnessDuration 300000 then
         jsMin 20 (m.stillnessDuration.getD 0 / 60000 * 2) else 0)
    + (if optGt m.magnitude 20 then 30 else 0)

/-- Audio block of the client `analyzeSensorData`: silence > 600000 ms adds
`min(30, ms/60000*2)`, breathing irregularity > 0.7 adds 25, distress
confidence > 0.6 adds `confidence*35`, sudden amplitude drop adds 15, current
amplitude > 0.8 adds 20. -/
def clientAudioScore (audio : Option Audio) : ℚ :=
  match audio with
  | none => 0
  | some au =>
      (if optGt au.silenceDuration 600000 then
         jsMin 30 (au.silenceDuration.getD 0 / 60000 * 2) else 0)
    + (if optGt au.breathingIrregularity 0.7 then 25 else 0)
    + (match au.distressSound with
       | some d => if optGt d.confidence 0.6 then d.confidence.getD 0 * 35 else 0
       | none => 0)
    + (if (match au.amplitude with
           | some amp => amp.suddenDrop
           | none => false) then 15 else 0)
    + (if (match au.amplitude with
           | some amp => optGt amp.current 0.8
           | none => false) then 20 else 0)

/-- Activity block of the client `analyzeSensorData`: inactivity > 1800000 ms
adds `min(20, ms/60000*0.5)`. -/
def clientActivityScore (activity : Option Activity) : ℚ :=
  match activity with
  | none => 0
  | some act =>
      if optGt act.inactivityDuration 1800000 then
        jsMin 20 (act.inactivityDuration.getD 0 / 60000 * 0.5)
      else 0

/-- Client `analyzeSensorData`: the three blocks summed and capped at 100. -/
def clientAnalyzeSensorData (sensorData : SensorData) : ℚ :=
  jsMin 100
    (clientMotionScore sensorData.motion + clientAudioScore sensorData.audio
      + clientActivityScore sensorData.activity)

/-- User-pattern block of the client `analyzeContextData`: unlike the server
it reads `currentActivity` from `userPatterns` itself. -/
def clientPatternScore (userPatterns : Option UserPatterns) : ℚ :=
  match userPatterns with
  | none => 0
  | some up =>
      (if optGt up.locationDeviation 0.8 then 12 else 0)
    + (if optGt up.usualActivityLevel 0.7 && optLt up.currentActivity 0.2 then 10 else 0)

/-- Client `analyzeContextData`: like the server plus an extra 5-point bonus
for the 02:00-05:00 peak-danger hours. -/
def clientAnalyzeContextData (currentHour : ℕ) (contextData : ContextData) : ℚ :=
  jsMin 100
    (timeOfDayScore currentHour
      + (if 2 ≤ currentHour ∧ currentHour ≤ 5 then 5 else 0)
      + environmentScore contextData.environment
      + clientPatternScore contextData.userPatterns)

/-- `riskFactors[location.type] || 0` of the client `analyzeLocationData`. -/
def locationTypeRisk (t : Option String) : ℚ :=
  match t with
  | none => 0
  | some s =>
    if s = "highway" then 10
    else if s = "construction" then 8
    else if s = "industrial" then 6
    else if s = "residential" then 2
    else if s = "commercial" then 1
    else if s = "hospital" then -5
    else if s = "police_station" then -5
    else 0

/-- Client `analyzeLocationData`: the server factors plus the location-type
risk table, clamped to [0, 100]. -/
def clientAnalyzeLocationData (location : Option Location) : ℚ :=
  match location with
  | none => 0
  | some loc =>
      jsMax 0 (jsMin 100
        (isolationScore loc.isolation + safeZoneScore loc.safeZones
          + locationTypeRisk loc.type))

/-- Client `calculateEmergencyScore`: the client blocks blended with the
user-specific thresholds (`sensor*0.5*motionSensitivity +
context*0.2*contextWeight + location*0.2 + crowd*0.1`, capped at 100); the
crowd term is always computed over the empty list. -/
def clientCalculateEmergencyScore (t : Thresholds) (currentHour : ℕ) (now : ℚ)
    (sensorData : SensorData) (contextData : ContextData)
    (location : Option Location) : ScoreBreakdown :=
  let sensorScore := clientAnalyzeSensorData sensorData
  let contextScore := clientAnalyzeContextData currentHour contextData
  let locationScore := clientAnalyzeLocationData location
  let crowdScore := analyzeCrowdData now []
  { sensorScore := sensorScore
    contextScore := contextScore
    locationScore := locationScore
    crowdScore := crowdScore
    totalScore := jsMin 100
      (sensorScore * 0.5 * t.motionSensitivity
        + contextScore * 0.2 * t.contextWeight
        + locationScore * 0.2 + crowdScore * 0.1)
    manual := false }

/-- Recipient kinds built by `sendEmergencyAlert`. -/
inductive RecipientType where
  | admin
  | emergency_contact
  deriving DecidableEq, Repr

/-- One notification recipient. -/
structure Recipient where
  name : String
  email : String
  type : RecipientType
  deriving DecidableEq, Repr

/-- The fixed operator address hard-coded in
`emergencyNotificationService.js`. -/
def adminEmail : String := "kanijayachandran25@gmail.com"

/-- The fixed admin entry placed at the head of the recipient list. -/
def adminRecipient : Recipient :=
  { name := "SilentSOS Admin", email := adminEmail, type := RecipientType.admin }

/-- An `emergency_contacts` row as read by the recipient resolver. -/
structure EmergencyContact where
  name : String
  email : String
  deriving DecidableEq, Repr

/-- Per-contact step of recipient resolution: contacts with a truthy email
different from the operator address become `emergency_contact` recipients;
the rest are skipped. -/
def contactRecipient (contact : EmergencyContact) : Option Recipient :=
  if contact.email ≠ "" ∧ contact.email ≠ adminEmail then
    some { name := contact.name, email := contact.email
           type := RecipientType.emergency_contact }
  else none

/-- Recipient resolution inside `sendEmergencyAlert`: when the user's contact
query is empty the function returns early (`No emergency contacts
configured`) without building any list, modelled as `none`; otherwise the
admin entry comes first, followed by the filtered contacts. -/
def buildRecipients (contacts : List EmergencyContact) : Option (List Recipient) :=
  if contacts.isEmpty then none
  else some (adminRecipient :: contacts.filterMap contactRecipient)

/-- Per-recipient send status recorded in `emailResults.details`. -/
inductive SendStatus where
  | sent
  | failed
  deriving DecidableEq, Repr

/-- One entry of `emailResults.details`. -/
structure SendDetail where
  recipient : String
  status : SendStatus
  deriving DecidableEq, Repr

/-- The `emailResults` aggregate of `sendEmergencyAlert`. -/
structure EmailResults where
  total : ℕ
  successful : ℕ
  failed : ℕ
  details : List SendDetail
  deriving DecidableEq, Repr

/-- The send loop of `sendEmergencyAlert`: `total` is fixed up front, each
recipient is attempted inside its own try/catch (`sendOk` abstracts whether
`transporter.sendMail` succeeds for that recipient), a success increments
`successful` and a thrown error increments `failed`; no failure aborts the
loop.  `sendStep` is one iteration: the try block (success) or the catch
block (failure). -/
def sendStep (sendOk : Recipient → Bool) (acc : EmailResults) (recipient : Recipient) :
    EmailResults :=
  if sendOk recipient then
    { acc with successful := acc.successful + 1
               details := acc.details ++ [⟨recipient.email, SendStatus.sent⟩] }
  else
    { acc with failed := acc.failed + 1
               details := acc.details ++ [⟨recipient.email, SendStatus.failed⟩] }

/-- The whole send loop: `total` fixed to the recipient count up front, then
one `sendStep` per recipient in order. -/
def sendLoop (recipients : List Recipient) (sendOk : Recipient → Bool) : EmailResults :=
  recipients.foldl (sendStep sendOk)
    { total := recipients.length, successful := 0, failed := 0, details := [] }

/-- The manual-alert score object hard-coded in `POST /report`. -/
def manualBreakdown : ScoreBreakdown :=
  { sensorScore := 0, contextScore := 0, locationScore := 0, crowdScore := 0
    totalScore := 100, manual := true }

/-- What `POST /report` derives from the scoring step: the `confidence`
stored on the emergency record and the `score` and `breakdown` of the JSON
response. -/
structure ReportResult where
  confidence : ℚ
  breakdown : ScoreBreakdown
  score : ℚ
  manual : Bool
  deriving DecidableEq, Repr

/-- Scoring portion of `POST /report`: a truthy `manual` flag skips
`calculateEmergencyScore` entirely and uses the fixed 100-confidence object;
otherwise the computed breakdown and its `totalScore` are used. -/
def reportEmergency (manual : Bool) (currentHour : ℕ) (now : ℚ)
    (sensorData : Option SensorData) (contextData : Option ContextData)
    (location : Option Location) : Except String ReportResult :=
  if manual then
    Except.ok { confidence := 100, breakdown := manualBreakdown, score := 100, manual := true }
  else
    match calculateEmergencyScore currentHour now sensorData contextData location with
    | Except.error e => Except.error e
    | Except.ok b =>
        Except.ok { confidence := b.totalScore, breakdown := b, score := b.totalScore, manual := false }

/-- An `emergencies` document, restricted to the fields the cancel/resolve
routes read or write. -/
structure EmergencyRecordDoc where
  userId : String
  status : String
  resolved : Bool
  cancelReason : Option String
  cancelledAt : Option String
  resolvedAt : Option String
  resolvedBy : Option String
  resolutionNotes : Option String
  createdAt : String
  deriving DecidableEq, Repr

/-- A `learning_data` document appended by the cancel route. -/
structure LearningRecord where
  userId : String
  emergencyId : String
  sensorSnapshot : SensorData
  outcome : String
  timestamp : String
  deriving DecidableEq, Repr

/-- The slice of the Firestore state the cancel/resolve routes touch. -/
structure Database where
  emergencies : List (String × EmergencyRecordDoc)
  learningData : List LearningRecord
  deriving DecidableEq, Repr

/-- `db.collection('emergencies').doc(id).get()`. -/
def findDoc (docs : List (String × EmergencyRecordDoc)) (id : String) :
    Option EmergencyRecordDoc :=
  (docs.find? fun p => p.1 = id).map Prod.snd

/-- `db.collection('emergencies').doc(id).update(patch)` on an existing
document: apply the patch to the matching entry. -/
def updateDoc (docs : List (String × EmergencyRecordDoc)) (id : String)
    (patch : EmergencyRecordDoc → EmergencyRecordDoc) :
    List (String × EmergencyRecordDoc) :=
  docs.map fun p => if p.1 = id then (p.1, patch p.2) else p

/-- HTTP outcomes of the cancel/resolve routes. -/
inductive HttpOutcome where
  | ok
  | notFound
  | forbidden
  | serverError
  deriving DecidableEq, Repr

/-- `POST /cancel/:emergencyId`: 404 when the document does not exist, 403
when it belongs to another user; otherwise the record is marked cancelled
(status, cancelledAt, cancelReason, resolved) and, when a sensor snapshot was
sent, a `false_positive` learning record is appended. -/
def cancelEmergency (db : Database) (emergencyId callerUid reason : String)
    (sensorSnapshot : Option SensorData) (nowStr : String) : HttpOutcome × Database :=
  match findDoc db.emergencies emergencyId with
  | none => (HttpOutcome.notFound, db)
  | some doc =>
    if doc.userId ≠ callerUid then (HttpOutcome.forbidden, db)
    else
      let emergencies := updateDoc db.emergencies emergencyId fun r =>
        { r with status := "cancelled", cancelledAt := some nowStr
                 cancelReason := some reason, resolved := true }
      let learningData :=
        match sensorSnapshot with
        | some snap =>
            db.learningData ++
              [{ userId := callerUid, emergencyId := emergencyId, sensorSnapshot := snap
                 outcome := "false_positive", timestamp := nowStr }]
        | none => db.learningData
      (HttpOutcome.ok, { emergencies := emergencies, learningData := learningData })

/-- `POST /resolve/:emergencyId`: no ownership or status check at all; the
update marks the record resolved unconditionally (a missing document makes
the Firestore update throw, surfaced as a 500). -/
def resolveEmergency (db : Database) (emergencyId resolvedBy notes nowStr : String) :
    HttpOutcome × Database :=
  match findDoc db.emergencies emergencyId with
  | none => (HttpOutcome.serverError, db)
  | some _ =>
      (HttpOutcome.ok,
        { db with emergencies := updateDoc db.emergencies emergencyId fun r =>
            { r with status := "resolved", resolvedAt := some nowStr
                     resolvedBy := some resolvedBy, resolutionNotes := some notes
                     resolved := true } })

/-! Helper lemmas shared by the claim theorems. -/

lemma jsMin_eq_min (a b : ℚ) : jsMin a b = min a b := by
  unfold jsMin
  split
  · exact (min_eq_left ‹a ≤ b›).symm
  · exact (min_eq_right (le_of_not_le ‹¬ a ≤ b›)).symm

lemma jsMax_eq_max (a b : ℚ) : jsMax a b = max a b := by
  unfold jsMax
  split
  · exact (max_eq_right ‹a ≤ b›).symm
  · exact (max_eq_left (le_of_not_le ‹¬ a ≤ b›)).symm

lemma nonneg_ite {c : Prop} [Decidable c] {a b : ℚ} (ha : 0 ≤ a) (hb : 0 ≤ b) :
    0 ≤ if c then a else b := by
  split
  · exact ha
  · exact hb

/-- Projection of one `false_positive` update on the motion sensitivity:
multiply by 0.95 then clamp to [0.3, 2.0]. -/
lemma updateFP_motion (s : DetectorState) :
    (updateThresholds Outcome.false_positive s).userThresholds.motionSensitivity
      = jsMax 0.3 (jsMin 2.0 (s.userThresholds.motionSensitivity * 0.95)) := rfl

lemma motion_floor (n : ℕ) :
    (0.3 : ℚ) ≤ (iterateFalsePositives n).userThresholds.motionSensitivity := by
  induction n with
  | zero => norm_num [iterateFalsePositives, initialDetectorState]
  | succ k _ =>
      show (0.3 : ℚ) ≤ (updateThresholds Outcome.false_positive
        (iterateFalsePositives k)).userThresholds.motionSensitivity
      rw [updateFP_motion, jsMax_eq_max]
      exact le_max_left _ _

lemma motion_upper (n : ℕ) :
    (iterateFalsePositives n).userThresholds.motionSensitivity ≤ max 0.3 ((0.95 : ℚ) ^ n) := by
  induction n with
  | zero => norm_num [iterateFalsePositives, initialDetectorState]
  | succ k ih =>
      show (updateThresholds Outcome.false_positive
        (iterateFalsePositives k)).userThresholds.motionSensitivity ≤ _
      rw [updateFP_motion, jsMax_eq_max, jsMin_eq_min]
      have h1 : (iterateFalsePositives k).userThresholds.motionSensitivity * 0.95
          ≤ max 0.3 ((0.95:ℚ)^k) * 0.95 :=
        mul_le_mul_of_nonneg_right ih (by norm_num)
      have h2 : max (0.3:ℚ) ((0.95:ℚ)^k) * 0.95 ≤ max 0.3 ((0.95:ℚ)^(k+1)) := by
        rw [max_mul_of_nonneg _ _ (by norm_num : (0:ℚ) ≤ 0.95)]
        apply max_le_max (by norm_num)
        rw [pow_succ]
      calc max 0.3 (min 2.0 ((iterateFalsePositives k).userThresholds.motionSensitivity * 0.95))
          ≤ max 0.3 ((iterateFalsePositives k).userThresholds.motionSensitivity * 0.95) :=
            max_le_max le_rfl (min_le_right _ _)
        _ ≤ max 0.3 (max 0.3 ((0.95:ℚ)^k) * 0.95) := max_le_max le_rfl h1
        _ ≤ max 0.3 (max 0.3 ((0.95:ℚ)^(k+1))) := max_le_max le_rfl h2
        _ = max 0.3 ((0.95:ℚ)^(k+1)) := by rw [← max_assoc, max_self]

/-! Claim theorems. -/

/-- Claim C1, counterexample: the claim asserts 40 ≤ t ≤ 70 maps to
`suspicious` at both boundaries, but `classifyEmergency` uses `score >= 70`
for `emergency` (so 70.0 is `emergency`) and the `SensorContext` status uses
the strict `totalScore > 40` (so 40.0 is `safe`). -/
theorem classify_boundary_counterexample :
    classifyEmergency 70 = Level.emergency ∧ processSensorDataStatus 40 = Level.safe := by
  constructor <;> norm_num [classifyEmergency, processSensorDataStatus]

/-- Claim C1, amended: `classifyEmergency` maps t < 40 to `safe`,
40 ≤ t < 70 to `suspicious` and t ≥ 70 to `emergency`, while the
`SensorContext` status map is strict: t ≤ 40 is `safe`, 40 < t ≤ 70 is
`suspicious`, t > 70 is `emergency`. -/
theorem classify_thresholds (t : ℚ) :
    (t < 40 → classifyEmergency t = Level.safe) ∧
    (40 ≤ t → t < 70 → classifyEmergency t = Level.suspicious) ∧
    (70 ≤ t → classifyEmergency t = Level.emergency) ∧
    (t ≤ 40 → processSensorDataStatus t = Level.safe) ∧
    (40 < t → t ≤ 70 → processSensorDataStatus t = Level.suspicious) ∧
    (70 < t → processSensorDataStatus t = Level.emergency) := by
  unfold classifyEmergency processSensorDataStatus
  refine ⟨fun h => ?_, fun h1 h2 => ?_, fun h => ?_, fun h => ?_, fun h1 h2 => ?_, fun h => ?_⟩ <;>
    split_ifs <;> first | rfl | (exfalso; linarith)

/-- Claim C1, witness: the amended boundary behaviour at concrete scores. -/
theorem classify_thresholds_spot :
    classifyEmergency 39 = Level.safe ∧ classifyEmergency 40 = Level.suspicious ∧
    classifyEmergency 70 = Level.emergency ∧ processSensorDataStatus 40 = Level.safe ∧
    processSensorDataStatus 70 = Level.suspicious ∧
    processSensorDataStatus 71 = Level.emergency :=
  ⟨(classify_thresholds 39).1 (by norm_num),
   (classify_thresholds 40).2.1 (by norm_num) (by norm_num),
   (classify_thresholds 70).2.2.1 (by norm_num),
   (classify_thresholds 40).2.2.2.1 (by norm_num),
   (classify_thresholds 70).2.2.2.2.1 (by norm_num) (by norm_num),
   (classify_thresholds 71).2.2.2.2.2 (by norm_num)⟩

/-- Claim C6: from defaults, one `false_positive` gives motion and audio
sensitivity 0.95 with `contextWeight` unchanged; after 6 cumulative false
positives `contextWeight` is 0.9; after 50 consecutive false positives the
motion sensitivity sits exactly at the clamp floor 0.3, and it never goes
below 0.3 at any point. -/
theorem adaptive_thresholds_false_positives :
    (iterateFalsePositives 1).userThresholds
        = { motionSensitivity := 0.95, audioSensitivity := 0.95, contextWeight := 1 } ∧
    (iterateFalsePositives 6).userThresholds.contextWeight = 0.9 ∧
    (iterateFalsePositives 50).userThresholds.motionSensitivity = 0.3 ∧
    (∀ n, 0.3 ≤ (iterateFalsePositives n).userThresholds.motionSensitivity) := by
  refine ⟨?_, ?_, ?_, motion_floor⟩
  · show (updateThresholds Outcome.false_positive initialDetectorState).userThresholds = _
    norm_num [updateThresholds, initialDetectorState, jsMin, jsMax]
  · have e1 : iterateFalsePositives 1 = ⟨⟨19/20, 19/20, 1⟩, 1⟩ := by
      show updateThresholds Outcome.false_positive initialDetectorState = _
      norm_num [updateThresholds, initialDetectorState, jsMin, jsMax]
    have e2 : iterateFalsePositives 2 = ⟨⟨361/400, 361/400, 1⟩, 2⟩ := by
      show updateThresholds Outcome.false_positive (iterateFalsePositives 1) = _
      rw [e1]; norm_num [updateThresholds, jsMin, jsMax]
    have e3 : iterateFalsePositives 3 = ⟨⟨6859/8000, 6859/8000, 1⟩, 3⟩ := by
      show updateThresholds Outcome.false_positive (iterateFalsePositives 2) = _
      rw [e2]; norm_num [updateThresholds, jsMin, jsMax]
    have e4 : iterateFalsePositives 4 = ⟨⟨130321/160000, 130321/160000, 1⟩, 4⟩ := by
      show updateThresholds Outcome.false_positive (iterateFalsePositives 3) = _
      rw [e3]; norm_num [updateThresholds, jsMin, jsMax]
    have e5 : iterateFalsePositives 5 = ⟨⟨2476099/3200000, 2476099/3200000, 1⟩, 5⟩ := by
      show updateThresholds Outcome.false_positive (iterateFalsePositives 4) = _
      rw [e4]; norm_num [updateThresholds, jsMin, jsMax]
    have e6 : iterateFalsePositives 6 = ⟨⟨47045881/64000000, 47045881/64000000, 9/10⟩, 6⟩ := by
      show updateThresholds Outcome.false_positive (iterateFalsePositives 5) = _
      rw [e5]; norm_num [updateThresholds, jsMin, jsMax]
    rw [e6]
    norm_num
  · have h1 := motion_upper 50
    have h2 : max (0.3:ℚ) ((0.95:ℚ)^50) = 0.3 := max_eq_left (by norm_num)
    rw [h2] at h1
    exact le_antisymm h1 (motion_floor 50)

/-- Claim C3, counterexample: for a user with zero emergency contacts
`sendEmergencyAlert` returns early with `No emergency contacts configured`
and never builds a recipient list at all — the admin entry is not produced,
contradicting "a user with zero emergency contacts yields exactly one
recipient (the admin)". -/
theorem zero_contacts_no_recipients : buildRecipients [] = none := rfl

/-- Claim C3, amended: when the user has at least one contact, the resolved
list is non-empty with the fixed admin entry first and contacts sharing the
operator email excluded (3 contacts, one of them the admin address, give 3
recipients); but a user with zero contacts gets no recipient list at all
(early return), not the single admin entry. -/
theorem recipient_resolution_amended :
    (∀ contacts : List EmergencyContact, contacts ≠ [] →
        buildRecipients contacts = some (adminRecipient :: contacts.filterMap contactRecipient)) ∧
    buildRecipients [] = none ∧
    buildRecipients
        [{ name := "A", email := "a@x.test" }, { name := "B", email := adminEmail },
         { name := "C", email := "c@x.test" }]
      = some [adminRecipient,
              { name := "A", email := "a@x.test", type := RecipientType.emergency_contact },
              { name := "C", email := "c@x.test", type := RecipientType.emergency_contact }] := by
  refine ⟨fun contacts h => ?_, rfl, ?_⟩
  · cases contacts with
    | nil => exact absurd rfl h
    | cons c cs => rfl
  · rfl

/-- Claim C3, witness: the amended head-is-admin shape at a concrete
one-contact list. -/
theorem recipient_resolution_spot :
    ([{ name := "A", email := "a@x.test" }] : List EmergencyContact) ≠ [] ∧
    buildRecipients [{ name := "A", email := "a@x.test" }]
      = some (adminRecipient ::
          ([{ name := "A", email := "a@x.test" }] : List EmergencyContact).filterMap
            contactRecipient) :=
  ⟨by simp, recipient_resolution_amended.1 [{ name := "A", email := "a@x.test" }] (by simp)⟩

/-- Claim C4: a truthy `manual` flag bypasses the scoring engine for every
sensor, context and location input: the stored confidence and the returned
score are both 100, and the breakdown is the fixed manual object with
`manual: true` and all four sub-scores 0. -/
theorem manual_report_bypasses_scoring (currentHour : ℕ) (now : ℚ)
    (sensorData : Option SensorData) (contextData : Option ContextData)
    (location : Option Location) :
    reportEmergency true currentHour now sensorData contextData location
      = Except.ok { confidence := 100, breakdown := manualBreakdown, score := 100, manual := true } ∧
    manualBreakdown.totalScore = 100 ∧ manualBreakdown.manual = true ∧
    manualBreakdown.sensorScore = 0 ∧ manualBreakdown.contextScore = 0 ∧
    manualBreakdown.locationScore = 0 ∧ manualBreakdown.crowdScore = 0 :=
  ⟨rfl, rfl, rfl, rfl, rfl, rfl, rfl⟩

lemma sendLoop_foldl_counts (sendOk : Recipient → Bool) (rs : List Recipient) :
    ∀ acc : EmailResults,
      ((rs.foldl (sendStep sendOk) acc).successful + (rs.foldl (sendStep sendOk) acc).failed
        = acc.successful + acc.failed + rs.length) ∧
      (rs.foldl (sendStep sendOk) acc).total = acc.total ∧
      (rs.foldl (sendStep sendOk) acc).details.length = acc.details.length + rs.length := by
  induction rs with
  | nil => intro acc; simp
  | cons r rest ih =>
      intro acc
      have h := ih (sendStep sendOk acc r)
      by_cases hr : sendOk r
      · simp only [List.foldl_cons, sendStep, hr, if_true] at h ⊢
        simp at h ⊢
        omega
      · simp only [List.foldl_cons, sendStep, hr, if_false] at h ⊢
        simp at h ⊢
        omega

/-- Claim C5: for every recipient list and every pattern of per-recipient
failures the loop attempts one send per recipient (one detail entry each, no
short-circuit) and `successful + failed = total`; with 3 recipients where
the second send throws the aggregate is total 3, successful 2, failed 1. -/
theorem dispatch_counts_conservation :
    (∀ (recipients : List Recipient) (sendOk : Recipient → Bool),
        (sendLoop recipients sendOk).successful + (sendLoop recipients sendOk).failed
          = (sendLoop recipients sendOk).total ∧
        (sendLoop recipients sendOk).details.length = recipients.length) ∧
    sendLoop
        [adminRecipient,
         { name := "B", email := "b@x.test", type := RecipientType.emergency_contact },
         { name := "C", email := "c@x.test", type := RecipientType.emergency_contact }]
        (fun r => r.email != "b@x.test")
      = { total := 3, successful := 2, failed := 1
          details := [⟨adminEmail, SendStatus.sent⟩, ⟨"b@x.test", SendStatus.failed⟩,
                      ⟨"c@x.test", SendStatus.sent⟩] } := by
  constructor
  · intro recipients sendOk
    have h := sendLoop_foldl_counts sendOk recipients
      { total := recipients.length, successful := 0, failed := 0, details := [] }
    unfold sendLoop
    refine ⟨?_, ?_⟩
    · have h1 := h.1
      have h2 := h.2.1
      simp at h1 h2
      omega
    · have h3 := h.2.2
      simpa using h3
  · rfl

/-- A record as created by `POST /report`: owned by `u1`, status `active`. -/
def reportedDoc : EmergencyRecordDoc :=
  { userId := "u1", status := "active", resolved := false, cancelReason := none
    cancelledAt := none, resolvedAt := none, resolvedBy := none, resolutionNotes := none
    createdAt := "t0" }

/-- A database holding exactly that one reported emergency. -/
def reportedDb : Database :=
  { emergencies := [("e1", reportedDoc)], learningData := [] }

/-- Claim C9, at the failing input: the cancel route succeeds and marks `e1`
cancelled, yet a later resolve also succeeds and overwrites the status to
`resolved` — neither route guards on the current status, so the terminal
states are not mutually exclusive as the specification requires. -/
theorem cancelled_record_can_be_resolved :
    (cancelEmergency reportedDb "e1" "u1" "false alarm" none "t1").1 = HttpOutcome.ok ∧
    ((findDoc (cancelEmergency reportedDb "e1" "u1" "false alarm" none "t1").2.emergencies
        "e1").map EmergencyRecordDoc.status) = some "cancelled" ∧
    (resolveEmergency (cancelEmergency reportedDb "e1" "u1" "false alarm" none "t1").2
        "e1" "admin" "handled" "t2").1 = HttpOutcome.ok ∧
    ((findDoc (resolveEmergency (cancelEmergency reportedDb "e1" "u1" "false alarm" none "t1").2
        "e1" "admin" "handled" "t2").2.emergencies "e1").map EmergencyRecordDoc.status)
      = some "resolved" :=
  ⟨rfl, rfl, rfl, rfl⟩

lemma findDoc_updateDoc (docs : List (String × EmergencyRecordDoc)) (id : String)
    (patch : EmergencyRecordDoc → EmergencyRecordDoc) :
    findDoc (updateDoc docs id patch) id = (findDoc docs id).map patch := by
  induction docs with
  | nil => rfl
  | cons p ps ih =>
      by_cases hp : p.1 = id
      · simp [findDoc, updateDoc, hp]
      · simp only [findDoc, updateDoc, List.map_cons, if_neg hp] at ih ⊢
        rw [List.find?_cons_of_neg, List.find?_cons_of_neg]
        · exact ih
        · simpa using hp
        · simpa using hp

/-- Claim C10: the cancel route mutates state only when the record exists and
belongs to the caller; a missing record gives 404 and a foreign record 403,
both leaving the emergencies and the learning_data collections exactly as
they were; on a match the route succeeds and the record is patched to
cancelled. -/
theorem cancel_guards (db : Database) (emergencyId callerUid reason nowStr : String)
    (sensorSnapshot : Option SensorData) :
    (findDoc db.emergencies emergencyId = none →
      cancelEmergency db emergencyId callerUid reason sensorSnapshot nowStr
        = (HttpOutcome.notFound, db)) ∧
    (∀ doc, findDoc db.emergencies emergencyId = some doc → doc.userId ≠ callerUid →
      cancelEmergency db emergencyId callerUid reason sensorSnapshot nowStr
        = (HttpOutcome.forbidden, db)) ∧
    (∀ doc, findDoc db.emergencies emergencyId = some doc → doc.userId = callerUid →
      (cancelEmergency db emergencyId callerUid reason sensorSnapshot nowStr).1
          = HttpOutcome.ok ∧
      findDoc (cancelEmergency db emergencyId callerUid reason sensorSnapshot
            nowStr).2.emergencies emergencyId
        = some { doc with status := "cancelled", cancelledAt := some nowStr
                          cancelReason := some reason, resolved := true }) := by
  refine ⟨fun h => ?_, fun doc h hne => ?_, fun doc h he => ?_⟩
  · simp only [cancelEmergency, h]
  · simp only [cancelEmergency, h, if_pos hne]
  · have hcond : ¬ doc.userId ≠ callerUid := not_not_intro he
    constructor
    · simp only [cancelEmergency, h, if_neg hcond]
    · simp only [cancelEmergency, h, if_neg hcond]
      rw [findDoc_updateDoc, h]
      rfl

lemma serverMotionScore_nonneg (motion : Option Motion) : 0 ≤ serverMotionScore motion := by
  cases motion with
  | none => exact le_refl 0
  | some m =>
      show (0:ℚ) ≤ _ + _ + _
      refine add_nonneg (add_nonneg ?_ ?_) ?_ <;> exact nonneg_ite (by norm_num) (by norm_num)

lemma serverAudioScore_nonneg (audio : Option Audio) : 0 ≤ serverAudioScore audio := by
  cases audio with
  | none => exact le_refl 0
  | some au =>
      show (0:ℚ) ≤ _ + _ + _ + _
      refine add_nonneg (add_nonneg (add_nonneg ?_ ?_) ?_) ?_ <;>
        exact nonneg_ite (by norm_num) (by norm_num)

lemma serverActivityScore_nonneg (activity : Option Activity) :
    0 ≤ serverActivityScore activity := by
  cases activity with
  | none => exact le_refl 0
  | some act => exact nonneg_ite (by norm_num) (by norm_num)

lemma analyzeSensorData_nonneg (sd : SensorData) : 0 ≤ analyzeSensorData sd := by
  unfold analyzeSensorData
  rw [jsMin_eq_min, le_min_iff]
  exact ⟨by norm_num,
    add_nonneg (add_nonneg (serverMotionScore_nonneg _) (serverAudioScore_nonneg _))
      (serverActivityScore_nonneg _)⟩

lemma environmentScore_nonneg (environment : Option Environment) :
    0 ≤ environmentScore environment := by
  cases environment with
  | none => exact le_refl 0
  | some env =>
      show (0:ℚ) ≤ _ + _ + _
      refine add_nonneg (add_nonneg ?_ ?_) ?_ <;> exact nonneg_ite (by norm_num) (by norm_num)

lemma serverPatternScore_nonneg (userPatterns : Option UserPatterns)
    (currentActivity : Option ℚ) : 0 ≤ serverPatternScore userPatterns currentActivity := by
  cases userPatterns with
  | none => exact le_refl 0
  | some up =>
      show (0:ℚ) ≤ _ + _
      refine add_nonneg ?_ ?_ <;> exact nonneg_ite (by norm_num) (by norm_num)

lemma analyzeContextData_nonneg (currentHour : ℕ) (cd : ContextData) :
    0 ≤ analyzeContextData currentHour cd := by
  unfold analyzeContextData
  rw [jsMin_eq_min, le_min_iff]
  refine ⟨by norm_num, add_nonneg (add_nonneg ?_ (environmentScore_nonneg _))
    (serverPatternScore_nonneg _ _)⟩
  exact nonneg_ite (by norm_num) (by norm_num)

lemma analyzeLocationData_nonneg (location : Option Location) :
    0 ≤ analyzeLocationData location := by
  cases location with
  | none => exact le_refl 0
  | some loc =>
      show (0:ℚ) ≤ jsMax 0 _
      rw [jsMax_eq_max]
      exact le_max_left _ _

lemma analyzeCrowdData_nonneg (now : ℚ) (crowdSignals : List CrowdSignal) :
    0 ≤ analyzeCrowdData now crowdSignals := by
  unfold analyzeCrowdData
  split
  · exact le_refl 0
  · rw [jsMin_eq_min, le_min_iff]
    exact ⟨by norm_num,
      add_nonneg (nonneg_ite (by norm_num) (by norm_num)) (nonneg_ite (by norm_num) (by norm_num))⟩

/-- Claim C7: the server total score is always within [0, 100], and the
weighted blend is monotonically non-decreasing in each sub-score holding the
others fixed. -/
theorem totalScore_bounds_and_monotone :
    (∀ (currentHour : ℕ) (now : ℚ) (sd : SensorData) (cd : ContextData) (loc : Option Location),
        0 ≤ (calculateScore currentHour now sd cd loc).totalScore ∧
        (calculateScore currentHour now sd cd loc).totalScore ≤ 100) ∧
    (∀ s₁ s₂ c l cr : ℚ, s₁ ≤ s₂ → weightedTotal s₁ c l cr ≤ weightedTotal s₂ c l cr) ∧
    (∀ s c₁ c₂ l cr : ℚ, c₁ ≤ c₂ → weightedTotal s c₁ l cr ≤ weightedTotal s c₂ l cr) ∧
    (∀ s c l₁ l₂ cr : ℚ, l₁ ≤ l₂ → weightedTotal s c l₁ cr ≤ weightedTotal s c l₂ cr) ∧
    (∀ s c l cr₁ cr₂ : ℚ, cr₁ ≤ cr₂ → weightedTotal s c l cr₁ ≤ weightedTotal s c l cr₂) := by
  have hmono : ∀ a₁ a₂ b : ℚ, a₁ ≤ a₂ → jsMin 100 (a₁ + b) ≤ jsMin 100 (a₂ + b) := by
    intro a₁ a₂ b hle
    rw [jsMin_eq_min, jsMin_eq_min]
    exact min_le_min le_rfl (add_le_add_right hle b)
  refine ⟨fun currentHour now sd cd loc => ?_, ?_, ?_, ?_, ?_⟩
  · have htot : (calculateScore currentHour now sd cd loc).totalScore
        = weightedTotal (analyzeSensorData sd) (analyzeContextData currentHour cd)
            (analyzeLocationData loc)
            (analyzeCrowdData now (cd.crowdSignals.getD [])) := rfl
    rw [htot]
    unfold weightedTotal
    rw [jsMin_eq_min]
    constructor
    · rw [le_min_iff]
      refine ⟨by norm_num, ?_⟩
      refine add_nonneg (add_nonneg (add_nonneg ?_ ?_) ?_) ?_ <;>
        exact mul_nonneg (by first
          | exact analyzeSensorData_nonneg sd
          | exact analyzeContextData_nonneg currentHour cd
          | exact analyzeLocationData_nonneg loc
          | exact analyzeCrowdData_nonneg now (cd.crowdSignals.getD [])) (by norm_num)
    · exact min_le_left _ _
  · intro s₁ s₂ c l cr h
    unfold weightedTotal
    have : s₁ * 0.5 + c * 0.2 + l * 0.2 + cr * 0.1
        = s₁ * 0.5 + (c * 0.2 + l * 0.2 + cr * 0.1) := by ring
    rw [this]
    have h2 : s₂ * 0.5 + c * 0.2 + l * 0.2 + cr * 0.1
        = s₂ * 0.5 + (c * 0.2 + l * 0.2 + cr * 0.1) := by ring
    rw [h2]
    exact hmono _ _ _ (mul_le_mul_of_nonneg_right h (by norm_num))
  · intro s c₁ c₂ l cr h
    unfold weightedTotal
    have h1 : s * 0.5 + c₁ * 0.2 + l * 0.2 + cr * 0.1
        = c₁ * 0.2 + (s * 0.5 + l * 0.2 + cr * 0.1) := by ring
    have h2 : s * 0.5 + c₂ * 0.2 + l * 0.2 + cr * 0.1
        = c₂ * 0.2 + (s * 0.5 + l * 0.2 + cr * 0.1) := by ring
    rw [h1, h2]
    exact hmono _ _ _ (mul_le_mul_of_nonneg_right h (by norm_num))
  · intro s c l₁ l₂ cr h
    unfold weightedTotal
    have h1 : s * 0.5 + c * 0.2 + l₁ * 0.2 + cr * 0.1
        = l₁ * 0.2 + (s * 0.5 + c * 0.2 + cr * 0.1) := by ring
    have h2 : s * 0.5 + c * 0.2 + l₂ * 0.2 + cr * 0.1
        = l₂ * 0.2 + (s * 0.5 + c * 0.2 + cr * 0.1) := by ring
    rw [h1, h2]
    exact hmono _ _ _ (mul_le_mul_of_nonneg_right h (by norm_num))
  · intro s c l cr₁ cr₂ h
    unfold weightedTotal
    have h1 : s * 0.5 + c * 0.2 + l * 0.2 + cr₁ * 0.1
        = cr₁ * 0.1 + (s * 0.5 + c * 0.2 + l * 0.2) := by ring
    have h2 : s * 0.5 + c * 0.2 + l * 0.2 + cr₂ * 0.1
        = cr₂ * 0.1 + (s * 0.5 + c * 0.2 + l * 0.2) := by ring
    rw [h1, h2]
    exact hmono _ _ _ (mul_le_mul_of_nonneg_right h (by norm_num))

/-- Claim C7, witness: the bounds at a concrete input and monotonicity in the
sensor score at concrete sub-scores. -/
theorem totalScore_bounds_spot :
    (0 ≤ (calculateScore 12 0 ⟨none, none, none⟩ ⟨none, none, none, none⟩ none).totalScore ∧
      (calculateScore 12 0 ⟨none, none, none⟩ ⟨none, none, none, none⟩ none).totalScore ≤ 100) ∧
    weightedTotal 20 10 10 0 ≤ weightedTotal 30 10 10 0 :=
  ⟨totalScore_bounds_and_monotone.1 12 0 ⟨none, none, none⟩ ⟨none, none, none, none⟩ none,
   totalScore_bounds_and_monotone.2.1 20 30 10 10 0 (by norm_num)⟩

/-- The `sensorData` argument with every sub-object absent. -/
def emptySensorData : SensorData := ⟨none, none, none⟩

/-- The `contextData` argument with every sub-field absent. -/
def emptyContextData : ContextData := ⟨none, none, none, none⟩

/-- Claim C8, counterexample: a `null`/`undefined` `sensorData` or
`contextData` argument makes `calculateEmergencyScore` throw a `TypeError`
(property access on null), so it does not return normally on every input. -/
theorem null_arguments_throw :
    calculateEmergencyScore 12 0 none none none
        = Except.error "TypeError: cannot read properties of sensorData" ∧
    calculateEmergencyScore 12 0 (some emptySensorData) none none
        = Except.error "TypeError: cannot read properties of contextData" :=
  ⟨rfl, rfl⟩

/-- Claim C8, amended: whenever `sensorData` and `contextData` are objects
(each sub-object may still be missing), the function returns normally and
every missing part contributes zero, so the all-absent input at a daytime
hour scores zero everywhere; only a null/undefined top-level `sensorData` or
`contextData` throws. -/
theorem score_graceful_on_object_inputs :
    (∀ (currentHour : ℕ) (now : ℚ) (sd : SensorData) (cd : ContextData) (loc : Option Location),
        calculateEmergencyScore currentHour now (some sd) (some cd) loc
          = Except.ok (calculateScore currentHour now sd cd loc)) ∧
    analyzeSensorData emptySensorData = 0 ∧
    analyzeContextData 12 emptyContextData = 0 ∧
    analyzeLocationData none = 0 ∧
    analyzeCrowdData 0 [] = 0 ∧
    calculateScore 12 0 emptySensorData emptyContextData none
      = { sensorScore := 0, contextScore := 0, locationScore := 0, crowdScore := 0
          totalScore := 0, manual := false } := by
  have hs : analyzeSensorData emptySensorData = 0 := by
    norm_num [analyzeSensorData, emptySensorData, serverMotionScore, serverAudioScore,
      serverActivityScore, jsMin]
  have hc : analyzeContextData 12 emptyContextData = 0 := by
    norm_num [analyzeContextData, emptyContextData, timeOfDayScore, environmentScore,
      serverPatternScore, jsMin]
  refine ⟨fun _ _ _ _ _ => rfl, hs, hc, rfl, rfl, ?_⟩
  have ht : calculateScore 12 0 emptySensorData emptyContextData none
      = { sensorScore := analyzeSensorData emptySensorData
          contextScore := analyzeContextData 12 emptyContextData
          locationScore := 0, crowdScore := 0
          totalScore := weightedTotal (analyzeSensorData emptySensorData)
            (analyzeContextData 12 emptyContextData) 0 0
          manual := false } := rfl
  rw [ht, hs, hc]
  norm_num [weightedTotal, jsMin]

/-- The claimed test-scenario motion payload: magnitude 20.5, variance 12,
`inactivityDurationMs` 35000 (a field neither analyzer reads). -/
def scenarioMotion : Motion :=
  { magnitude := some 20.5, variance := some 12, stillnessDuration := none
    inactivityDurationMs := some 35000, suddenImpact := none, acceleration := none }

/-- The scenario sensor payload: the motion above, no audio, no activity. -/
def scenarioSensorData : SensorData :=
  { motion := some scenarioMotion, audio := none, activity := none }

/-- Claim C2, counterexample: on the scenario input the client sensor
analyzer returns 54 (not the claimed capped 100), the server analyzer
returns 0, and the client total with default thresholds stays below 70, so
the classification is not `emergency`. -/
theorem sensor_scenario_counterexample :
    clientAnalyzeSensorData scenarioSensorData ≠ 100 ∧
    analyzeSensorData scenarioSensorData ≠ 100 ∧
    (clientCalculateEmergencyScore defaultThresholds 12 0 scenarioSensorData
        emptyContextData none).totalScore < 70 := by
  have h54 : clientAnalyzeSensorData scenarioSensorData = 54 := by
    norm_num [clientAnalyzeSensorData, scenarioSensorData, scenarioMotion, clientMotionScore,
      clientAudioScore, clientActivityScore, optGt, jsMin]
  have h0 : analyzeSensorData scenarioSensorData = 0 := by
    norm_num [analyzeSensorData, scenarioSensorData, scenarioMotion, serverMotionScore,
      serverAudioScore, serverActivityScore, optGt, jsMin]
  refine ⟨by rw [h54]; norm_num, by rw [h0]; norm_num, ?_⟩
  have htot : (clientCalculateEmergencyScore defaultThresholds 12 0 scenarioSensorData
      emptyContextData none).totalScore
      = jsMin 100 (clientAnalyzeSensorData scenarioSensorData * 0.5 * 1
          + clientAnalyzeContextData 12 emptyContextData * 0.2 * 1
          + clientAnalyzeLocationData none * 0.2 + analyzeCrowdData 0 [] * 0.1) := rfl
  have hctx : clientAnalyzeContextData 12 emptyContextData = 0 := by
    norm_num [clientAnalyzeContextData, emptyContextData, timeOfDayScore, environmentScore,
      clientPatternScore, jsMin]
  rw [htot, h54, hctx]
  norm_num [clientAnalyzeLocationData, analyzeCrowdData, jsMin]

/-- Claim C2, amended: on the scenario input the client analyzer scores 54
(variance 12 contributes `min(25, 24)` and magnitude 20.5 contributes 30;
`inactivityDurationMs` is never read — inactivity is read from
`activity.inactivityDuration` against a 1800000 ms threshold), the server
analyzer scores 0 (it reads `acceleration.variance` and `suddenImpact`,
both absent), and with default thresholds and no context, location or crowd
contribution the client total is 27, classified `safe`. -/
theorem sensor_scenario_actual :
    clientAnalyzeSensorData scenarioSensorData = 54 ∧
    analyzeSensorData scenarioSensorData = 0 ∧
    (clientCalculateEmergencyScore defaultThresholds 12 0 scenarioSensorData
        emptyContextData none).totalScore = 27 ∧
    classifyEmergency (clientCalculateEmergencyScore defaultThresholds 12 0 scenarioSensorData
        emptyContextData none).totalScore = Level.safe ∧
    processSensorDataStatus (clientCalculateEmergencyScore defaultThresholds 12 0
        scenarioSensorData emptyContextData none).totalScore = Level.safe := by
  have h54 : clientAnalyzeSensorData scenarioSensorData = 54 := by
    norm_num [clientAnalyzeSensorData, scenarioSensorData, scenarioMotion, clientMotionScore,
      clientAudioScore, clientActivityScore, optGt, jsMin]
  have h0 : analyzeSensorData scenarioSensorData = 0 := by
    norm_num [analyzeSensorData, scenarioSensorData, scenarioMotion, serverMotionScore,
      serverAudioScore, serverActivityScore, optGt, jsMin]
  have hctx : clientAnalyzeContextData 12 emptyContextData = 0 := by
    norm_num [clientAnalyzeContextData, emptyContextData, timeOfDayScore, environmentScore,
      clientPatternScore, jsMin]
  have htot : (clientCalculateEmergencyScore defaultThresholds 12 0 scenarioSensorData
      emptyContextData none).totalScore
      = jsMin 100 (clientAnalyzeSensorData scenarioSensorData * 0.5 * 1
          + clientAnalyzeContextData 12 emptyContextData * 0.2 * 1
          + clientAnalyzeLocationData none * 0.2 + analyzeCrowdData 0 [] * 0.1) := rfl
  have h27 : (clientCalculateEmergencyScore defaultThresholds 12 0 scenarioSensorData
      emptyContextData none).totalScore = 27 := by
    rw [htot, h54, hctx]
    norm_num [clientAnalyzeLocationData, analyzeCrowdData, jsMin]
  refine ⟨h54, h0, h27, ?_, ?_⟩
  · rw [h27]; norm_num [classifyEmergency]
  · rw [h27]; norm_num [processSensorDataStatus]

/-- An empty database, used to exercise the 404 branch. -/
def emptyDb : Database := { emergencies := [], learningData := [] }

/-- Claim C10, witness: cancelling a non-existent emergency in an empty
database returns 404 and leaves the database untouched. -/
theorem cancel_guards_spot :
    findDoc emptyDb.emergencies "e9" = none ∧
    cancelEmergency emptyDb "e9" "u1" "oops" none "t1" = (HttpOutcome.notFound, emptyDb) :=
  ⟨rfl, (cancel_guards emptyDb "e9" "u1" "oops" "t1" none).1 rfl⟩

end SilentSOS
